import Mathlib

/-
Verification of the transition-state imaginary-mode validation pipeline of
autode/transition_states/base.py.

The embedding keeps the source's structure.  The external collaborators (the
electronic-structure calculation engine, the Euclidean geometry helpers
`autode.geom.length` and `Species.get_distance`, the graph builder `make_graph`,
the isomorphism test `species_are_isomorphic`, and the `BondRearrangement`
class) are not part of the excerpt; they are modelled from the specification as
abstract data carried by the inputs, as noted on each definition.  Real-valued
quantities are represented by rationals.
-/

namespace Autode

/-- Missing-data exceptions raised by the external calculation accessors
(autode.exceptions): `NoNormalModesFound` and `NoCalculationOutput` from
`get_normal_mode_displacements`, `AtomsNotFound` from `get_final_atoms` (the
exception that `get_optimised_species` catches from it). -/
inductive AdeError where
  | NoNormalModesFound
  | NoCalculationOutput
  | AtomsNotFound
deriving DecidableEq

instance : DecidableEq (Except AdeError Bool) := fun a b =>
  match a, b with
  | Except.error x, Except.error y =>
    match decEq x y with
    | isTrue h => isTrue (h ▸ rfl)
    | isFalse h => isFalse (fun he => h (Except.error.inj he))
  | Except.ok x, Except.ok y =>
    match decEq x y with
    | isTrue h => isTrue (h ▸ rfl)
    | isFalse h => isFalse (fun he => h (Except.ok.inj he))
  | Except.error _, Except.ok _ => isFalse (fun he => Except.noConfusion he)
  | Except.ok _, Except.error _ => isFalse (fun he => Except.noConfusion he)

/-- Modelled from the spec: the calculation abstraction
(autode.calculation.Calculation is not under src/).  It exposes the ordered
list of imaginary frequencies (most negative first, `get_imag_freqs`), the
per-atom magnitudes |displacement_vector(atom)| of the mode-6 normal-mode
displacement vectors (`get_normal_mode_displacements` composed with the
external Euclidean norm `autode.geom.length`), and the atomic weights of the
final atoms (`get_final_atoms` composed with `autode.atoms.get_atomic_weight`).
`none` stands for the accessor raising its missing-data exception:
NoNormalModesFound/NoCalculationOutput for the normal modes and AtomsNotFound
for the final atoms. -/
structure Calculation where
  imag_freqs : List ℚ
  mode6_magnitudes : Option (List ℚ)
  final_atom_weights : Option (List ℚ)

/-- The per-atom weighted magnitudes of ts_has_contribution_from_active_atoms
(base.py:138-140): atomic weight of the atom plus ten times the magnitude of
the atom's mode-6 displacement. -/
def weighted_imag_mode_magnitudes (ws mags : List ℚ) : List ℚ :=
  (List.range ws.length).map (fun i => ws.getD i 0 + 10 * mags.getD i 0)

/-- The relative contribution of the active atoms to the imaginary mode
(base.py:143-145): the sum of the weighted magnitudes over the active atoms
divided by the sum over all atoms. -/
def rel_contribution (ws mags : List ℚ) (active_atoms : List ℕ) : ℚ :=
  ((active_atoms.map
      (fun idx => (weighted_imag_mode_magnitudes ws mags).getD idx 0)).sum) /
    (weighted_imag_mode_magnitudes ws mags).sum

/-- ts_has_contribution_from_active_atoms (base.py:110-154).  The `try` wraps
only `get_normal_mode_displacements`, catching NoNormalModesFound and
NoCalculationOutput and returning false; `get_final_atoms` (base.py:135) sits
outside the `try`, so its missing-data exception propagates. -/
def ts_has_contribution_from_active_atoms (hcalc : Calculation)
    (active_atoms : List ℕ) (threshold : ℚ) : Except AdeError Bool :=
  match hcalc.mode6_magnitudes with
  | none => Except.ok false
  | some mags =>
    match hcalc.final_atom_weights with
    | none => Except.error AdeError.AtomsNotFound
    | some ws =>
      Except.ok (decide (rel_contribution ws mags active_atoms > threshold))

/-- TSbase.could_have_correct_imag_mode (base.py:28-69) once the Hessian
calculation is attached (the lazy Hessian run of base.py:44-49 only attaches
`hcalc`).  The multiple-imaginary-mode warning (base.py:57-58) does not affect
the result.  The contribution check runs at its default threshold 0.1. -/
def could_have_correct_imag_mode (hcalc : Calculation) (active_atoms : List ℕ)
    (threshold : ℚ) : Except AdeError Bool :=
  match hcalc.imag_freqs with
  | [] => Except.ok false
  | freq0 :: _ =>
    if freq0 > threshold then Except.ok false
    else
      match ts_has_contribution_from_active_atoms hcalc active_atoms (1/10) with
      | Except.error e => Except.error e
      | Except.ok c => if !c then Except.ok false else Except.ok true

/-- Modelled from the spec: a bond rearrangement
(autode.bond_rearrangement, not under src/) holds the forming and the breaking
bonds as canonically ordered atom-index pairs. -/
structure BondRearrangement where
  fbonds : List (ℕ × ℕ)
  bbonds : List (ℕ × ℕ)
deriving DecidableEq

/-- Modelled from the spec: `BondRearrangement.all` is the union (here the
concatenation) of the forming and the breaking bonds. -/
def BondRearrangement.all (br : BondRearrangement) : List (ℕ × ℕ) :=
  br.fbonds ++ br.bbonds

/-- Modelled from the spec: `BondRearrangement.active_atoms` is the set of atom
indices appearing in a forming or a breaking bond. -/
def BondRearrangement.active_atoms (br : BondRearrangement) : List ℕ :=
  (((br.fbonds ++ br.bbonds).map (fun p => [p.1, p.2])).flatten).dedup

/-- Modelled from the spec: a structure (the TS, or a displaced trial structure
built by get_displaced_atoms_along_mode, base.py:157-182) as the
Displacement-Based Bond-Change Validator observes it: its pairwise interatomic
distances (`Species.get_distance`, external Euclidean geometry) and the edge
set of its molecular graph as rebuilt by the external `make_graph` at the
relaxed relative distance tolerance 0.3 (base.py:252-253), edges stored as
canonically ordered index pairs. -/
structure SpeciesGeom where
  dist : ℕ → ℕ → ℚ
  graph_edges : List (ℕ × ℕ)

/-- imag_mode_generates_other_bonds (base.py:248-266): true when the forward-
or the backward-displaced structure has a graph edge that is absent from the
TS structure's graph and is not one of the rearrangement's bonds. -/
def imag_mode_generates_other_bonds (ts f_species b_species : SpeciesGeom)
    (br : BondRearrangement) : Bool :=
  [f_species, b_species].any (fun product =>
    (product.graph_edges.filter
        (fun bond => decide (bond ∉ ts.graph_edges))).any
      (fun bond => decide (bond ∉ br.all)))

/-- imag_mode_has_correct_displacement (base.py:185-245).  The two displaced
trial structures, built by displacing the calculation's final atoms along mode
6 by +disp_mag and -disp_mag (base.py:200-204), enter through the `f_species`
and `b_species` arguments, observed via their distances and graphs. -/
def imag_mode_has_correct_displacement (ts f_species b_species : SpeciesGeom)
    (br : BondRearrangement) (delta_threshold : ℚ) : Bool :=
  if imag_mode_generates_other_bonds ts f_species b_species br then false
  else
    [f_species, b_species].any (fun product =>
      (br.fbonds.map (fun fbond =>
          decide (ts.dist fbond.1 fbond.2 - product.dist fbond.1 fbond.2 >
            delta_threshold)) ++
        br.bbonds.map (fun bbond =>
          decide (product.dist bbond.1 bbond.2 - ts.dist bbond.1 bbond.2 >
            delta_threshold))).all (fun b => b))

/-- Modelled from the spec: a molecule/species as the Optimization-Based
Reactant/Product Linker observes it: its optionally-set atoms (the Species
constructor stores the atom list it is given; `set_atoms` replaces it).
Graph isomorphism (`species_are_isomorphic`, external) is supplied as an
oracle on these. -/
structure Mol where
  atoms : Option (List (ℚ × ℚ × ℚ))
deriving DecidableEq

/-- get_optimised_species (base.py:330-348): a Molecule is constructed holding
the displaced atoms; on success `set_atoms` replaces them with the optimizer's
final atoms (and the graph is rebuilt); when `get_final_atoms` raises
AtomsNotFound the failure is logged, the `try` body is abandoned, and the
species is returned still holding the atoms it was constructed with.  The
external optimization outcome is the `opt_result` argument (`none` stands for
AtomsNotFound). -/
def get_optimised_species (opt_result : Option (List (ℚ × ℚ × ℚ)))
    (displaced_atoms : List (ℚ × ℚ × ℚ)) : Mol :=
  match opt_result with
  | some final_atoms => { atoms := some final_atoms }
  | none => { atoms := some displaced_atoms }

/-- forwards_backwards_are_isomorphic_to_reactants_and_products
(base.py:313-327), with species_are_isomorphic supplied as the `iso` oracle. -/
def forwards_backwards_are_isomorphic_to_reactants_and_products
    (iso : Mol → Mol → Bool) (forwards backwards reactant product : Mol) :
    Bool :=
  if [forwards, backwards].any (fun mol => mol.atoms.isNone) then false
  else if iso backwards reactant && iso forwards product then true
  else if iso forwards reactant && iso backwards product then true
  else false

/-- imag_mode_links_reactant_products (base.py:269-310).  `populate_conformers`
(base.py:287-288) is an external side effect whose value is never consumed.
The high-level optimizations of the forward/backward displaced atoms enter as
`opt_f`/`opt_b` (the final atoms, or `none` on AtomsNotFound); the in-place
low-level re-optimization `mol.optimise(method=get_lmethod(), ...)`
(base.py:302-303) enters as the oracle `lmethod_opt`. -/
def imag_mode_links_reactant_products (iso : Mol → Mol → Bool)
    (opt_f opt_b : Option (List (ℚ × ℚ × ℚ))) (lmethod_opt : Mol → Mol)
    (f_displaced_atoms b_displaced_atoms : List (ℚ × ℚ × ℚ))
    (reactant product : Mol) : Bool :=
  let f_displaced_mol := get_optimised_species opt_f f_displaced_atoms
  let b_displaced_mol := get_optimised_species opt_b b_displaced_atoms
  if forwards_backwards_are_isomorphic_to_reactants_and_products iso
      f_displaced_mol b_displaced_mol reactant product then true
  else
    if forwards_backwards_are_isomorphic_to_reactants_and_products iso
        (lmethod_opt f_displaced_mol) (lmethod_opt b_displaced_mol)
        reactant product then true
    else false

/-- The data a TSbase candidate carries when has_correct_imag_mode runs: the
attached Hessian calculation, the bond rearrangement, the metric/graph
observations of the TS and of the two mode-6 displaced structures, and the
inputs of the Optimization-Based Linker. -/
structure TSContext where
  hess : Calculation
  br : BondRearrangement
  ts_geom : SpeciesGeom
  f_geom : SpeciesGeom
  b_geom : SpeciesGeom
  iso : Mol → Mol → Bool
  opt_f : Option (List (ℚ × ℚ × ℚ))
  opt_b : Option (List (ℚ × ℚ × ℚ))
  lmethod_opt : Mol → Mol
  f_displaced_atoms : List (ℚ × ℚ × ℚ)
  b_displaced_atoms : List (ℚ × ℚ × ℚ)
  reactant : Mol
  product : Mol

/-- TSbase.has_correct_imag_mode (base.py:71-93) with the source's default
thresholds: could_have_correct_imag_mode at frequency threshold -50,
ts_has_contribution_from_active_atoms at 0.1, and
imag_mode_has_correct_displacement at delta_threshold 0.3. -/
def has_correct_imag_mode (ctx : TSContext) : Except AdeError Bool :=
  match could_have_correct_imag_mode ctx.hess ctx.br.active_atoms (-50) with
  | Except.error e => Except.error e
  | Except.ok false => Except.ok false
  | Except.ok true =>
    if imag_mode_has_correct_displacement ctx.ts_geom ctx.f_geom ctx.b_geom
        ctx.br (3/10) then Except.ok true
    else
      Except.ok (imag_mode_links_reactant_products ctx.iso ctx.opt_f ctx.opt_b
        ctx.lmethod_opt ctx.f_displaced_atoms ctx.b_displaced_atoms
        ctx.reactant ctx.product)

/-- A TS-like geometry in which every interatomic distance is 2. -/
def sgDist2 : SpeciesGeom := ⟨fun _ _ => 2, []⟩

/-- A displaced geometry in which every interatomic distance is 1. -/
def sgDist1 : SpeciesGeom := ⟨fun _ _ => 1, []⟩

/-- A displaced geometry in which every interatomic distance is 3. -/
def sgDist3 : SpeciesGeom := ⟨fun _ _ => 3, []⟩

/-- A molecule with an empty (but set) atom list. -/
def molEmpty : Mol := ⟨some []⟩

/-- An isomorphism oracle that always matches. -/
def isoTrue : Mol → Mol → Bool := fun _ _ => true

/-- An isomorphism oracle that never matches. -/
def isoFalse : Mol → Mol → Bool := fun _ _ => false

/-- A rearrangement with the single forming bond (0, 1). -/
def brFB : BondRearrangement := ⟨[(0, 1)], []⟩

/-- A rearrangement with no forming and no breaking bonds. -/
def brEmpty : BondRearrangement := ⟨[], []⟩

/-- A Hessian result with no imaginary frequencies. -/
def calcEmpty : Calculation := ⟨[], none, none⟩

/-- A Hessian result whose only imaginary frequency is above the -50
threshold. -/
def calcSmallFreq : Calculation := ⟨[-40], none, none⟩

/-- A one-atom Hessian result with a large imaginary frequency, unit mode
magnitude and zero atomic weight. -/
def calcGood : Calculation := ⟨[-100], some [1], some [0]⟩

/-- A context whose Hessian has no imaginary frequency: the Quick Screener
rejects it. -/
def ctxQuickFail : TSContext :=
  ⟨calcEmpty, brEmpty, sgDist2, sgDist1, sgDist3, isoFalse, none, none, id,
    [], [], molEmpty, molEmpty⟩

/-- A context that passes the Quick Screener and whose forward displacement
shortens the forming bond by 1 > 0.3. -/
def ctxDispOk : TSContext :=
  ⟨calcGood, brFB, sgDist2, sgDist1, sgDist3, isoFalse, none, none, id,
    [], [], molEmpty, molEmpty⟩

/-- A context that passes the Quick Screener, fails the displacement check
(no distance changes) and reaches the Optimization-Based Linker, whose oracle
matches everything. -/
def ctxLinked : TSContext :=
  ⟨calcGood, brFB, sgDist2, sgDist2, sgDist2, isoTrue, some [], some [], id,
    [], [], molEmpty, molEmpty⟩

theorem weighted_getD (ws mags : List ℚ) (i : ℕ) (h : i < ws.length) :
    (weighted_imag_mode_magnitudes ws mags).getD i 0 =
      ws.getD i 0 + 10 * mags.getD i 0 := by
  rw [weighted_imag_mode_magnitudes, List.getD_eq_getElem?_getD,
    List.getElem?_map, List.getElem?_range h]
  rfl

theorem list_range_map_sum (n : ℕ) (f : ℕ → ℚ) :
    ((List.range n).map f).sum = ∑ i in Finset.range n, f i := by
  induction n with
  | zero => simp
  | succ k ih =>
    rw [List.range_succ, List.map_append, List.sum_append, Finset.sum_range_succ,
      ih]
    simp

/-- Claim C2: imag_mode_has_correct_displacement returns true if and only if
the spurious-bond check does not fail and at least one of the two displaced
trial structures (forward or backward) has every forming bond shortened by
more than the delta threshold and every breaking bond lengthened by more than
the delta threshold, relative to the TS distances; either orientation is
accepted. -/
theorem imag_mode_has_correct_displacement_iff
    (ts f_species b_species : SpeciesGeom) (br : BondRearrangement) (d : ℚ) :
    imag_mode_has_correct_displacement ts f_species b_species br d = true ↔
      (imag_mode_generates_other_bonds ts f_species b_species br = false ∧
        ∃ p ∈ [f_species, b_species],
          (∀ q ∈ br.fbonds, ts.dist q.1 q.2 - p.dist q.1 q.2 > d) ∧
          (∀ q ∈ br.bbonds, p.dist q.1 q.2 - ts.dist q.1 q.2 > d)) := by
  cases hgen : imag_mode_generates_other_bonds ts f_species b_species br with
  | true => simp [imag_mode_has_correct_displacement, hgen]
  | false =>
    simp only [imag_mode_has_correct_displacement, hgen, Bool.false_eq_true,
      if_false, List.any_eq_true, List.all_eq_true, List.forall_mem_append,
      List.forall_mem_map, decide_eq_true_eq, true_and]

/-- Claim C3: the Spurious-Bond Detector signals failure exactly when some
edge of a displaced structure's rebuilt graph is absent from the TS
structure's edge set and is not one of the rearrangement's bonds (so when the
only new edges are the rearrangement's bonds it does not fire). -/
theorem imag_mode_generates_other_bonds_iff
    (ts f_species b_species : SpeciesGeom) (br : BondRearrangement) :
    imag_mode_generates_other_bonds ts f_species b_species br = true ↔
      ∃ p ∈ [f_species, b_species], ∃ bond ∈ p.graph_edges,
        bond ∉ ts.graph_edges ∧ bond ∉ br.all := by
  simp only [imag_mode_generates_other_bonds, List.any_eq_true,
    List.mem_filter, decide_eq_true_eq]
  constructor
  · rintro ⟨p, hp, bond, ⟨h1, h2⟩, h3⟩
    exact ⟨p, hp, bond, h1, h2, h3⟩
  · rintro ⟨p, hp, bond, h1, h2, h3⟩
    exact ⟨p, hp, bond, ⟨h1, h2⟩, h3⟩

/-- Claim C10: with no forming and no breaking bonds, if the spurious-bond
check does not fail then imag_mode_has_correct_displacement returns true
vacuously (the conjunction over an empty bond list holds for the first trial
structure). -/
theorem imag_mode_has_correct_displacement_empty_bonds
    (ts f_species b_species : SpeciesGeom) (br : BondRearrangement) (d : ℚ)
    (hf : br.fbonds = []) (hb : br.bbonds = [])
    (hs : imag_mode_generates_other_bonds ts f_species b_species br = false) :
    imag_mode_has_correct_displacement ts f_species b_species br d = true := by
  simp [imag_mode_has_correct_displacement, hs, hf, hb]

theorem imag_mode_has_correct_displacement_empty_bonds_witness :
    imag_mode_has_correct_displacement sgDist2 sgDist1 sgDist3 brEmpty (3/10) =
      true :=
  imag_mode_has_correct_displacement_empty_bonds sgDist2 sgDist1 sgDist3
    brEmpty (3/10) rfl rfl rfl

/-- Claim C5: with a Hessian attached, could_have_correct_imag_mode returns
false when there is no imaginary frequency, returns false when the first
(most negative) imaginary frequency is above the threshold, and otherwise
returns exactly the result of the active-atom contribution check. -/
theorem could_have_correct_imag_mode_cases (hcalc : Calculation)
    (active_atoms : List ℕ) (t : ℚ) :
    (hcalc.imag_freqs = [] →
        could_have_correct_imag_mode hcalc active_atoms t = Except.ok false) ∧
    (∀ freq0 rest, hcalc.imag_freqs = freq0 :: rest → freq0 > t →
        could_have_correct_imag_mode hcalc active_atoms t = Except.ok false) ∧
    (∀ freq0 rest, hcalc.imag_freqs = freq0 :: rest → freq0 ≤ t →
        could_have_correct_imag_mode hcalc active_atoms t =
          ts_has_contribution_from_active_atoms hcalc active_atoms (1/10)) := by
  refine ⟨fun h => ?_, fun freq0 rest h hgt => ?_, fun freq0 rest h hle => ?_⟩
  · simp [could_have_correct_imag_mode, h]
  · simp [could_have_correct_imag_mode, h, hgt]
  · simp only [could_have_correct_imag_mode, h]
    rw [if_neg (not_lt.mpr hle)]
    cases hr : ts_has_contribution_from_active_atoms hcalc active_atoms (1/10)
      with
    | error e => rfl
    | ok c => cases c <;> rfl

theorem could_have_correct_imag_mode_cases_witness :
    could_have_correct_imag_mode calcEmpty [] (-50) = Except.ok false ∧
    could_have_correct_imag_mode calcSmallFreq [] (-50) = Except.ok false ∧
    could_have_correct_imag_mode calcGood (brFB.active_atoms) (-50) =
      ts_has_contribution_from_active_atoms calcGood (brFB.active_atoms)
        (1/10) :=
  ⟨(could_have_correct_imag_mode_cases calcEmpty [] (-50)).1 rfl,
   (could_have_correct_imag_mode_cases calcSmallFreq [] (-50)).2.1 (-40) []
     rfl (by norm_num),
   (could_have_correct_imag_mode_cases calcGood (brFB.active_atoms)
     (-50)).2.2 (-100) [] rfl (by norm_num)⟩

/-- Claim C7 counterexample: when the normal modes are available but the
final atoms are not, ts_has_contribution_from_active_atoms does not return
false: the missing-data exception escapes (get_final_atoms sits outside the
try block, base.py:135). -/
theorem ts_has_contribution_escape_counterexample :
    ts_has_contribution_from_active_atoms ⟨[-100], some [1], none⟩ [0]
        (1/10) = Except.error AdeError.AtomsNotFound ∧
    ts_has_contribution_from_active_atoms ⟨[-100], some [1], none⟩ [0]
        (1/10) ≠ Except.ok false := by
  refine ⟨rfl, fun h => ?_⟩
  exact Except.noConfusion h

/-- Claim C7 (amended): when the normal-mode data is unavailable the
contribution check returns false; but when the normal modes are available
and the final coordinates are not, the missing-data exception propagates out
of the check instead of being converted to false. -/
theorem ts_has_contribution_missing_data (hcalc : Calculation)
    (active_atoms : List ℕ) (t : ℚ) :
    (hcalc.mode6_magnitudes = none →
        ts_has_contribution_from_active_atoms hcalc active_atoms t =
          Except.ok false) ∧
    (∀ mags, hcalc.mode6_magnitudes = some mags →
      hcalc.final_atom_weights = none →
        ts_has_contribution_from_active_atoms hcalc active_atoms t =
          Except.error AdeError.AtomsNotFound) := by
  refine ⟨fun h => ?_, fun mags h1 h2 => ?_⟩
  · simp [ts_has_contribution_from_active_atoms, h]
  · simp [ts_has_contribution_from_active_atoms, h1, h2]

theorem ts_has_contribution_missing_data_witness :
    ts_has_contribution_from_active_atoms ⟨[-100], none, none⟩ [0] (1/10) =
      Except.ok false ∧
    ts_has_contribution_from_active_atoms ⟨[-100], some [1], none⟩ [1] (1/10) =
      Except.error AdeError.AtomsNotFound :=
  ⟨(ts_has_contribution_missing_data ⟨[-100], none, none⟩ [0] (1/10)).1 rfl,
   (ts_has_contribution_missing_data ⟨[-100], some [1], none⟩ [1] (1/10)).2
     [1] rfl rfl⟩

/-- Claim C4: with normal modes and final atoms available, the contribution
check computes the per-atom weights atomic_weight + 10 * |displacement|, sums
them over the active atoms, divides by the sum over all atoms, and returns
true exactly when the ratio strictly exceeds the threshold. -/
theorem ts_has_contribution_eval (hcalc : Calculation) (active_atoms : List ℕ)
    (t : ℚ) (ws mags : List ℚ) (hm : hcalc.mode6_magnitudes = some mags)
    (hw : hcalc.final_atom_weights = some ws)
    (ha : ∀ i ∈ active_atoms, i < ws.length) :
    ts_has_contribution_from_active_atoms hcalc active_atoms t =
      Except.ok (decide
        ((active_atoms.map (fun i => ws.getD i 0 + 10 * mags.getD i 0)).sum /
            (∑ i in Finset.range ws.length,
              (ws.getD i 0 + 10 * mags.getD i 0)) > t)) := by
  have hnum : active_atoms.map
      (fun idx => (weighted_imag_mode_magnitudes ws mags).getD idx 0) =
      active_atoms.map (fun i => ws.getD i 0 + 10 * mags.getD i 0) :=
    List.map_congr_left (fun i hi => weighted_getD ws mags i (ha i hi))
  have hden : (weighted_imag_mode_magnitudes ws mags).sum =
      ∑ i in Finset.range ws.length, (ws.getD i 0 + 10 * mags.getD i 0) :=
    list_range_map_sum ws.length _
  have hr : rel_contribution ws mags active_atoms =
      (active_atoms.map (fun i => ws.getD i 0 + 10 * mags.getD i 0)).sum /
        ∑ i in Finset.range ws.length, (ws.getD i 0 + 10 * mags.getD i 0) := by
    rw [rel_contribution, hnum, hden]
  simp only [ts_has_contribution_from_active_atoms, hm, hw, hr]

theorem ts_has_contribution_eval_witness :
    ts_has_contribution_from_active_atoms ⟨[-100], some [3, 4], some [1, 2]⟩
        [1] 0 =
      Except.ok (decide
        (([1].map (fun i =>
            [(1 : ℚ), 2].getD i 0 + 10 * [(3 : ℚ), 4].getD i 0)).sum /
          (∑ i in Finset.range ([(1 : ℚ), 2].length),
            ([(1 : ℚ), 2].getD i 0 + 10 * [(3 : ℚ), 4].getD i 0)) > 0)) :=
  ts_has_contribution_eval ⟨[-100], some [3, 4], some [1, 2]⟩ [1] 0 [1, 2]
    [3, 4] rfl rfl (by simp)

theorem getD_zero_of_all_zero (ws : List ℚ) (hw : ∀ w ∈ ws, w = 0) (i : ℕ) :
    ws.getD i 0 = 0 := by
  rw [List.getD_eq_getElem?_getD]
  cases h : ws[i]? with
  | none => rfl
  | some w => simpa using hw w (List.getElem?_mem h)

theorem getD_map_mul (c : ℚ) (l : List ℚ) (i : ℕ) :
    (l.map (fun m => c * m)).getD i 0 = c * l.getD i 0 := by
  rw [List.getD_eq_getElem?_getD, List.getD_eq_getElem?_getD,
    List.getElem?_map]
  cases l[i]? with
  | none => simp
  | some m => simp

theorem sum_map_mul {α : Type} (c : ℚ) (g : α → ℚ) (l : List α) :
    (l.map (fun a => c * g a)).sum = c * (l.map g).sum := by
  induction l with
  | nil => simp
  | cons a tl ih => simp [ih, mul_add]

theorem sum_map_mul_self (c : ℚ) (l : List ℚ) :
    (l.map (fun x => c * x)).sum = c * l.sum := by
  induction l with
  | nil => simp
  | cons a tl ih => simp [ih, mul_add]

/-- Claim C9 counterexample: scaling every mode-6 displacement magnitude by
the positive factor 2 changes the active-atom contribution ratio (from 11/12
to 21/22) and even flips the boolean returned by
ts_has_contribution_from_active_atoms at threshold 47/50, because the
additive atomic-weight term does not scale. -/
theorem rel_contribution_scaling_counterexample :
    ts_has_contribution_from_active_atoms ⟨[-100], some [1, 0], some [1, 1]⟩
        [0] (47/50) = Except.ok false ∧
    ts_has_contribution_from_active_atoms
        ⟨[-100], some ([1, 0].map (fun m => (2 : ℚ) * m)), some [1, 1]⟩ [0]
        (47/50) = Except.ok true ∧
    rel_contribution [1, 1] ([1, 0].map (fun m => (2 : ℚ) * m)) [0] ≠
      rel_contribution [1, 1] [1, 0] [0] := by
  refine ⟨?_, ?_, ?_⟩
  · simp only [ts_has_contribution_from_active_atoms, Except.ok.injEq,
      decide_eq_false_iff_not, not_lt]
    simp [rel_contribution, weighted_imag_mode_magnitudes, List.range_succ]
    norm_num
  · simp only [ts_has_contribution_from_active_atoms, Except.ok.injEq,
      decide_eq_true_eq]
    simp [rel_contribution, weighted_imag_mode_magnitudes, List.range_succ]
    norm_num
  · simp [rel_contribution, weighted_imag_mode_magnitudes, List.range_succ]
    norm_num

/-- Claim C9 (amended): the active-atom contribution ratio is invariant under
a global positive scaling of all displacement magnitudes when every atomic
weight is zero (then numerator and denominator scale identically); with
nonzero atomic weights the additive weight term breaks the invariance. -/
theorem rel_contribution_scale_invariant (ws mags : List ℚ)
    (active_atoms : List ℕ) (c : ℚ) (hw : ∀ w ∈ ws, w = 0) (hc : 0 < c) :
    rel_contribution ws (mags.map (fun m => c * m)) active_atoms =
      rel_contribution ws mags active_atoms := by
  have hW : weighted_imag_mode_magnitudes ws (mags.map (fun m => c * m)) =
      (weighted_imag_mode_magnitudes ws mags).map (fun x => c * x) := by
    rw [weighted_imag_mode_magnitudes, weighted_imag_mode_magnitudes,
      List.map_map]
    refine List.map_congr_left (fun i _ => ?_)
    simp only [Function.comp_apply, getD_map_mul,
      getD_zero_of_all_zero ws hw i]
    ring
  have hnum : active_atoms.map (fun idx =>
      ((weighted_imag_mode_magnitudes ws mags).map (fun x => c * x)).getD idx
        0) = active_atoms.map (fun idx =>
      c * (weighted_imag_mode_magnitudes ws mags).getD idx 0) :=
    List.map_congr_left (fun idx _ => getD_map_mul c _ idx)
  rw [rel_contribution, rel_contribution, hW, hnum, sum_map_mul_self,
    sum_map_mul c (fun idx => (weighted_imag_mode_magnitudes ws mags).getD idx
      0) active_atoms]
  exact mul_div_mul_left _ _ (ne_of_gt hc)

theorem rel_contribution_scale_invariant_witness :
    rel_contribution [0, 0] ([1, 2].map (fun m => (2 : ℚ) * m)) [0] =
      rel_contribution [0, 0] [1, 2] [0] :=
  rel_contribution_scale_invariant [0, 0] [1, 2] [0] 2 (by simp)
    (by norm_num)

/-- Claim C1: has_correct_imag_mode returns false immediately when the Quick
Screener returns false; otherwise it returns true when the Displacement-Based
Bond-Change Validator returns true; otherwise it returns the result of the
Optimization-Based Reactant/Product Linker — the three stages in this order
with these short-circuits. -/
theorem has_correct_imag_mode_stages (ctx : TSContext) :
    (could_have_correct_imag_mode ctx.hess ctx.br.active_atoms (-50) =
        Except.ok false → has_correct_imag_mode ctx = Except.ok false) ∧
    (could_have_correct_imag_mode ctx.hess ctx.br.active_atoms (-50) =
        Except.ok true →
      imag_mode_has_correct_displacement ctx.ts_geom ctx.f_geom ctx.b_geom
          ctx.br (3/10) = true →
        has_correct_imag_mode ctx = Except.ok true) ∧
    (could_have_correct_imag_mode ctx.hess ctx.br.active_atoms (-50) =
        Except.ok true →
      imag_mode_has_correct_displacement ctx.ts_geom ctx.f_geom ctx.b_geom
          ctx.br (3/10) = false →
        has_correct_imag_mode ctx = Except.ok
          (imag_mode_links_reactant_products ctx.iso ctx.opt_f ctx.opt_b
            ctx.lmethod_opt ctx.f_displaced_atoms ctx.b_displaced_atoms
            ctx.reactant ctx.product)) := by
  refine ⟨fun h1 => ?_, fun h1 h2 => ?_, fun h1 h2 => ?_⟩
  · simp [has_correct_imag_mode, h1]
  · simp [has_correct_imag_mode, h1, h2]
  · simp [has_correct_imag_mode, h1, h2]

theorem has_correct_imag_mode_stages_witness :
    has_correct_imag_mode ctxQuickFail = Except.ok false ∧
    has_correct_imag_mode ctxDispOk = Except.ok true ∧
    has_correct_imag_mode ctxLinked = Except.ok true := by
  have hq : could_have_correct_imag_mode calcGood (brFB.active_atoms) (-50) =
      Except.ok true := by
    have hts : ts_has_contribution_from_active_atoms
        ⟨[-100], some [1], some [0]⟩ [0, 1] (1/10) = Except.ok true := by
      simp only [ts_has_contribution_from_active_atoms,
        Except.ok.injEq, decide_eq_true_eq]
      simp [rel_contribution, weighted_imag_mode_magnitudes, List.range_succ]
      norm_num
    have hact : brFB.active_atoms = [0, 1] := rfl
    rw [hact]
    simp only [could_have_correct_imag_mode, calcGood]
    rw [if_neg (by norm_num : ¬ ((-100 : ℚ) > -50))]
    rw [hts]
    rfl
  have hdisp : imag_mode_has_correct_displacement sgDist2 sgDist1 sgDist3
      brFB (3/10) = true := by
    simp [imag_mode_has_correct_displacement, imag_mode_generates_other_bonds,
      brFB, sgDist2, sgDist1, sgDist3]
    norm_num
  have hnodisp : imag_mode_has_correct_displacement sgDist2 sgDist2 sgDist2
      brFB (3/10) = false := by
    simp [imag_mode_has_correct_displacement, imag_mode_generates_other_bonds,
      brFB, sgDist2]
    norm_num
  refine ⟨(has_correct_imag_mode_stages ctxQuickFail).1 rfl,
    (has_correct_imag_mode_stages ctxDispOk).2.1 hq hdisp,
    ((has_correct_imag_mode_stages ctxLinked).2.2 hq hnodisp).trans rfl⟩

/-- Claim C6: imag_mode_links_reactant_products returns true exactly when the
isomorphism check succeeds on the optimized forward/backward structures or,
after one low-level re-optimization of both, on the re-optimized ones; and
the isomorphism check on structures with atoms set accepts either assignment
of forward/backward to reactant/product. -/
theorem imag_mode_links_reactant_products_spec (iso : Mol → Mol → Bool)
    (opt_f opt_b : Option (List (ℚ × ℚ × ℚ))) (lmethod_opt : Mol → Mol)
    (f_displaced_atoms b_displaced_atoms : List (ℚ × ℚ × ℚ))
    (reactant product : Mol) :
    (imag_mode_links_reactant_products iso opt_f opt_b lmethod_opt
        f_displaced_atoms b_displaced_atoms reactant product =
      (forwards_backwards_are_isomorphic_to_reactants_and_products iso
          (get_optimised_species opt_f f_displaced_atoms)
          (get_optimised_species opt_b b_displaced_atoms) reactant product ||
        forwards_backwards_are_isomorphic_to_reactants_and_products iso
          (lmethod_opt (get_optimised_species opt_f f_displaced_atoms))
          (lmethod_opt (get_optimised_species opt_b b_displaced_atoms))
          reactant product)) ∧
    (∀ forwards backwards : Mol, forwards.atoms ≠ none →
      backwards.atoms ≠ none →
        forwards_backwards_are_isomorphic_to_reactants_and_products iso
            forwards backwards reactant product =
          ((iso backwards reactant && iso forwards product) ||
            (iso forwards reactant && iso backwards product))) := by
  constructor
  · simp only [imag_mode_links_reactant_products]
    cases h1 : forwards_backwards_are_isomorphic_to_reactants_and_products iso
        (get_optimised_species opt_f f_displaced_atoms)
        (get_optimised_species opt_b b_displaced_atoms) reactant product with
    | true => simp [h1]
    | false =>
      cases h2 : forwards_backwards_are_isomorphic_to_reactants_and_products
          iso (lmethod_opt (get_optimised_species opt_f f_displaced_atoms))
          (lmethod_opt (get_optimised_species opt_b b_displaced_atoms))
          reactant product <;> simp [h1, h2]
  · intro forwards backwards hf hb
    have hf2 : forwards.atoms.isNone = false := by
      cases h : forwards.atoms.isNone with
      | false => rfl
      | true => exact absurd (Option.isNone_iff_eq_none.mp h) hf
    have hb2 : backwards.atoms.isNone = false := by
      cases h : backwards.atoms.isNone with
      | false => rfl
      | true => exact absurd (Option.isNone_iff_eq_none.mp h) hb
    simp only [forwards_backwards_are_isomorphic_to_reactants_and_products,
      List.any_cons, List.any_nil, hf2, hb2, Bool.or_self, Bool.or_false]
    cases hA : (iso backwards reactant && iso forwards product) <;>
      cases hB : (iso forwards reactant && iso backwards product) <;>
      simp [hA, hB]

theorem imag_mode_links_reactant_products_spec_witness :
    imag_mode_links_reactant_products isoTrue (some []) (some []) id [] []
        molEmpty molEmpty =
      (forwards_backwards_are_isomorphic_to_reactants_and_products isoTrue
          (get_optimised_species (some []) [])
          (get_optimised_species (some []) []) molEmpty molEmpty ||
        forwards_backwards_are_isomorphic_to_reactants_and_products isoTrue
          (id (get_optimised_species (some []) []))
          (id (get_optimised_species (some []) [])) molEmpty molEmpty) ∧
    forwards_backwards_are_isomorphic_to_reactants_and_products isoTrue
        molEmpty molEmpty molEmpty molEmpty =
      ((isoTrue molEmpty molEmpty && isoTrue molEmpty molEmpty) ||
        (isoTrue molEmpty molEmpty && isoTrue molEmpty molEmpty)) :=
  ⟨(imag_mode_links_reactant_products_spec isoTrue (some []) (some []) id []
      [] molEmpty molEmpty).1,
   (imag_mode_links_reactant_products_spec isoTrue (some []) (some []) id []
      [] molEmpty molEmpty).2 molEmpty molEmpty (by simp [molEmpty])
     (by simp [molEmpty])⟩

/-- Claim C8 counterexample: a displaced structure whose optimization fails
still has its atoms set (the displaced input atoms, not "no coordinates"),
and the isomorphism check can report a match for it rather than treating it
as not isomorphic to anything. -/
theorem get_optimised_species_failure_counterexample :
    (get_optimised_species none [((0 : ℚ), (0 : ℚ), (0 : ℚ))]).atoms ≠
        none ∧
    forwards_backwards_are_isomorphic_to_reactants_and_products isoTrue
        (get_optimised_species none [((0 : ℚ), (0 : ℚ), (0 : ℚ))])
        (get_optimised_species none [((1 : ℚ), (0 : ℚ), (0 : ℚ))]) molEmpty
        molEmpty = true := by
  refine ⟨fun h => ?_, rfl⟩
  exact Option.noConfusion h

/-- Claim C8 (amended): when the optimization of a displaced structure fails
to return final coordinates, the failure is logged and no exception
propagates, but the returned species keeps the displaced atoms it was
constructed with; the isomorphism check short-circuits to a non-match only
for a structure whose atoms are unset. -/
theorem get_optimised_species_failure_semantics
    (displaced_atoms : List (ℚ × ℚ × ℚ)) (iso : Mol → Mol → Bool)
    (forwards backwards reactant product : Mol)
    (h : forwards.atoms = none ∨ backwards.atoms = none) :
    (get_optimised_species none displaced_atoms).atoms =
        some displaced_atoms ∧
    forwards_backwards_are_isomorphic_to_reactants_and_products iso forwards
        backwards reactant product = false := by
  refine ⟨rfl, ?_⟩
  rcases h with h | h <;>
    simp [forwards_backwards_are_isomorphic_to_reactants_and_products, h]

theorem get_optimised_species_failure_semantics_witness :
    (get_optimised_species none [((0 : ℚ), (0 : ℚ), (0 : ℚ))]).atoms =
        some [((0 : ℚ), (0 : ℚ), (0 : ℚ))] ∧
    forwards_backwards_are_isomorphic_to_reactants_and_products isoTrue
        ⟨none⟩ molEmpty molEmpty molEmpty = false :=
  get_optimised_species_failure_semantics [((0 : ℚ), (0 : ℚ), (0 : ℚ))]
    isoTrue ⟨none⟩ molEmpty molEmpty molEmpty (Or.inl rfl)

end Autode
